import Mathlib

/-!
Shallow embedding of the Outfit-Curation-Engine core
(`src/models/schemas.py`, `src/services/rule_engine.py`,
`src/services/outfit_generator.py`).

Modelling conventions:
* Python floats in the core are exact decimal constants; they are embedded
  as rationals (`ℚ`), on which all the arithmetic is exact.
* Python `None`-returning / raising paths are embedded as `Option`
  (`none` = no candidate produced, resp. an uncaught exception).
* The pseudo-random source is an oracle: one `Decision` record per loop
  attempt, universally quantified in every theorem about the generator, so
  the theorems cover every sequence of random choices.  `random.sample`'s
  draw of distinct accessories is modelled by an arbitrary index function,
  whose outcome set contains every outcome of the source's sampler.
* Timestamps (`created_at`) carry no logic and are omitted.
-/

/-- `BodyType` enum of `schemas.py`. -/
inductive BodyType where
  | triangle | rectangle | hourglass | inverted_triangle | oval
deriving DecidableEq

/-- `OccasionType` enum of `schemas.py`. -/
inductive OccasionType where
  | casual | business | formal | party | glamorous
deriving DecidableEq

/-- `WeatherCondition` enum of `schemas.py`. -/
inductive WeatherCondition where
  | hot | warm | cool | cold | rainy
deriving DecidableEq

/-- `ItemCategory` enum of `schemas.py`. -/
inductive ItemCategory where
  | top | bottom | dress | outerwear | shoes | accessory
deriving DecidableEq

/-- `FitType` enum of `schemas.py`. -/
inductive FitType where
  | slim | regular | wide_leg | fitted | structured | relaxed
  | oversized | skinny | straight | boot_cut | a_line
deriving DecidableEq

/-- `Color` enum of `schemas.py` (`patterned` is the no-dominant-color sentinel). -/
inductive Color where
  | black | white | red | blue | green | yellow | purple | pink
  | orange | brown | gray | navy | beige | cream | patterned
deriving DecidableEq

/-- `ClothingItem` of `schemas.py`; only the fields the core reads are kept
(`attributes`, `brand`, `size`, `image_url`, `created_at` are never consulted
by the rule engine or the generator). -/
structure ClothingItem where
  item_id : String
  category : ItemCategory
  subcategory : String
  color : Color
  pattern : Option String
  fabric : String
  weight : String
  fit : FitType
deriving DecidableEq

/-- `UserInfo` of `schemas.py`; the core reads only `body_type`. -/
structure UserInfo where
  user_id : String
  body_type : BodyType
deriving DecidableEq

/-- `OccasionInfo` of `schemas.py` (the core reads `occasion_type` and `weather`). -/
structure OccasionInfo where
  occasion_type : OccasionType
  weather : WeatherCondition
  time_of_day : String
  formality_level : Int
deriving DecidableEq

/-- `OutfitRequest` of `schemas.py` (`max_outfits` is a count, embedded as `Nat`). -/
structure OutfitRequest where
  user_info : UserInfo
  occasion_info : OccasionInfo
  inventory : List ClothingItem
  max_outfits : Nat
deriving DecidableEq

/-- `Outfit` of `schemas.py`.  The source's `outfit_id` is the string
`"outfit_{n}"` for a sequential `n`; the numeral `n` is what is kept here,
it records the order of generation. -/
structure Outfit where
  outfit_id : Nat
  items : List ClothingItem
  occasion_type : OccasionType
  compatibility_score : ℚ
  style_notes : List String
deriving DecidableEq

/-! ### Rule tables (`RuleEngine._load_body_type_rules`, `_load_occasion_rules`) -/

/-- One entry of the body-type rule table.  Every entry of the source's
dict carries all of these keys. -/
structure BodyRules where
  top_fit : List FitType
  bottom_fit : List FitType
  dress_fit : List FitType
  recommended_colors_top : List Color
  recommended_colors_bottom : List Color
  avoid_fits_top : List FitType
  avoid_fits_bottom : List FitType
  fabric_weight_top : List String
  fabric_weight_bottom : List String

/-- `RuleEngine._load_body_type_rules`: entries exist for `triangle`,
`inverted_triangle` and `rectangle` only; `.get(body_type, {})` on the other
body types yields the empty rule dict, embedded as `none`. -/
def body_type_rules : BodyType → Option BodyRules
  | .triangle => some
      { top_fit := [.fitted, .structured]
        bottom_fit := [.straight, .boot_cut]
        dress_fit := [.a_line]
        recommended_colors_top := [.patterned, .red, .blue, .green]
        recommended_colors_bottom := [.black, .navy, .gray, .brown]
        avoid_fits_top := [.oversized, .relaxed]
        avoid_fits_bottom := [.skinny]
        fabric_weight_top := ["light", "medium"]
        fabric_weight_bottom := ["medium"] }
  | .inverted_triangle => some
      { top_fit := [.relaxed]
        bottom_fit := [.a_line, .wide_leg]
        dress_fit := [.a_line]
        recommended_colors_top := [.black, .navy, .gray]
        recommended_colors_bottom := [.patterned, .red, .blue]
        avoid_fits_top := [.structured]
        avoid_fits_bottom := [.skinny, .straight]
        fabric_weight_top := ["light"]
        fabric_weight_bottom := ["medium", "heavy"] }
  | .rectangle => some
      { top_fit := [.fitted, .structured]
        bottom_fit := [.a_line, .boot_cut]
        dress_fit := [.a_line]
        recommended_colors_top := [.patterned, .red, .blue]
        recommended_colors_bottom := [.patterned, .green, .purple]
        avoid_fits_top := [.oversized]
        avoid_fits_bottom := [.skinny]
        fabric_weight_top := ["light", "medium"]
        fabric_weight_bottom := ["medium"] }
  | _ => none

/-- One entry of the occasion rule table. -/
structure OccRules where
  allowed_fits : List FitType
  fabric_weights : List String
  color_intensity : String
  pattern_intensity : String

/-- `RuleEngine._load_occasion_rules`: entries exist for `casual`, `business`
and `party` only; `formal` and `glamorous` fall back to the empty dict. -/
def occasion_rules : OccasionType → Option OccRules
  | .casual => some
      { allowed_fits := [.relaxed, .straight]
        fabric_weights := ["light", "medium"]
        color_intensity := "medium"
        pattern_intensity := "medium" }
  | .business => some
      { allowed_fits := [.structured, .fitted]
        fabric_weights := ["medium"]
        color_intensity := "low"
        pattern_intensity := "low" }
  | .party => some
      { allowed_fits := [.fitted, .structured]
        fabric_weights := ["light", "medium"]
        color_intensity := "high"
        pattern_intensity := "high" }
  | _ => none

/-! ### Filtering (`RuleEngine.filter_by_body_type` / `filter_by_occasion`) -/

/-- `RuleEngine._is_item_compatible`.  `rules = none` embeds the empty rule
dict, on which every `"key" in rules` test is false and the item passes. -/
def is_item_compatible (item : ClothingItem) : Option BodyRules → Bool
  | none => true
  | some r =>
    if decide (item.category ∈ [ItemCategory.top, ItemCategory.dress, ItemCategory.outerwear])
        ∧ item.fit ∈ r.avoid_fits_top then false
    else if decide (item.category ∈ [ItemCategory.top, ItemCategory.dress, ItemCategory.outerwear])
        ∧ item.fit ∉ r.top_fit then false
    else if item.category = ItemCategory.bottom ∧ item.fit ∈ r.avoid_fits_bottom then false
    else if item.category = ItemCategory.bottom ∧ item.fit ∉ r.bottom_fit then false
    else if decide (item.category ∈ [ItemCategory.top, ItemCategory.dress, ItemCategory.outerwear])
        ∧ item.color ∉ r.recommended_colors_top then false
    else if item.category = ItemCategory.bottom ∧ item.color ∉ r.recommended_colors_bottom then false
    -- fabric-weight check: the source tests `category in [TOP, DRESS]`,
    -- outerwear is not in that list
    else if decide (item.category ∈ [ItemCategory.top, ItemCategory.dress])
        ∧ item.weight ∉ r.fabric_weight_top then false
    else if item.category = ItemCategory.bottom ∧ item.weight ∉ r.fabric_weight_bottom then false
    else true

/-- `RuleEngine.filter_by_body_type`. -/
def filter_by_body_type (items : List ClothingItem) (bt : BodyType) : List ClothingItem :=
  items.filter (fun item => is_item_compatible item (body_type_rules bt))

/-- `RuleEngine._is_item_occasion_compatible`. -/
def is_item_occasion_compatible (item : ClothingItem) (rules : Option OccRules)
    (occasion : OccasionInfo) : Bool :=
  if (match rules with
      | some r => decide (item.fit ∉ r.allowed_fits)
      | none => false) then false
  else if occasion.weather = WeatherCondition.hot ∧ item.weight = "heavy" then false
  else if occasion.weather = WeatherCondition.cold ∧ item.weight = "light" then false
  else if occasion.occasion_type = OccasionType.business ∧ item.category = ItemCategory.top
      ∧ item.subcategory ∉ ["shirt", "blouse", "button-down"] then false
  else true

/-- `RuleEngine.filter_by_occasion`. -/
def filter_by_occasion (items : List ClothingItem) (occasion : OccasionInfo) :
    List ClothingItem :=
  items.filter (fun item =>
    is_item_occasion_compatible item (occasion_rules occasion.occasion_type) occasion)

/-! ### Proportion scoring (`RuleEngine.score_outfit_proportions`, `_estimate_volume`) -/

/-- Python truthiness of the optional `pattern` field: `None` and the empty
string are falsy. -/
def pattern_truthy : Option String → Bool
  | none => false
  | some s => !(s == "")

/-- One member of the `elements` set of `score_outfit_proportions`; the
source uses prefixed strings (`"pattern_…"`, `"color_…"`, `"category_…"`),
so the three kinds never collide. -/
inductive StyleElement where
  | pat (s : String)
  | col (c : Color)
  | cat (c : ItemCategory)
deriving DecidableEq

/-- The `elements` set built by the loop of `score_outfit_proportions`. -/
def elements_of (outfit : List ClothingItem) : Finset StyleElement :=
  outfit.foldl (fun s item =>
    let s := if pattern_truthy item.pattern
             then insert (StyleElement.pat (item.pattern.getD "")) s else s
    let s := if item.color ≠ Color.patterned
             then insert (StyleElement.col item.color) s else s
    insert (StyleElement.cat item.category) s) ∅

/-- `RuleEngine._estimate_volume` (its `user_info` argument is never read). -/
def estimate_volume (item : ClothingItem) (_user : UserInfo) : ℚ :=
  let volume : ℚ := 0.5
  let volume := if decide (item.fit ∈ [FitType.oversized, FitType.relaxed]) then volume + 0.3
                else if decide (item.fit ∈ [FitType.fitted, FitType.skinny]) then volume - 0.3
                else volume
  let volume := if item.weight = "heavy" then volume + 0.2
                else if item.weight = "light" then volume - 0.2
                else volume
  max 0.1 (min 0.9 volume)

/-- `RuleEngine.score_outfit_proportions`. -/
def score_outfit_proportions (outfit : List ClothingItem) (user : UserInfo) : ℚ :=
  let score : ℚ := 1.0
  let score := if (elements_of outfit).card < 3 then score * 0.7 else score
  let tops := outfit.filter (fun item =>
    decide (item.category ∈ [ItemCategory.top, ItemCategory.dress, ItemCategory.outerwear]))
  let bottoms := outfit.filter (fun item => decide (item.category = ItemCategory.bottom))
  match tops, bottoms with
  | t :: _, b :: _ =>
    let top_volume := estimate_volume t user
    let bottom_volume := estimate_volume b user
    if top_volume > 0.7 ∧ bottom_volume > 0.7 then score * 0.6
    else if |top_volume - bottom_volume| > 0.3 then score * 1.2
    else score
  | _, _ => score

/-! ### Outfit generator (`OutfitGenerator`) -/

/-- The six buckets built by `OutfitGenerator._categorize_items`; the single
pass over the items preserves their order inside each bucket, which the
per-category filters below reproduce exactly. -/
structure Categorized where
  tops : List ClothingItem
  bottoms : List ClothingItem
  dresses : List ClothingItem
  outerwear : List ClothingItem
  shoes : List ClothingItem
  accessories : List ClothingItem
deriving DecidableEq

/-- `OutfitGenerator._categorize_items`. -/
def categorize_items (items : List ClothingItem) : Categorized :=
  { tops := items.filter (fun i => decide (i.category = ItemCategory.top))
    bottoms := items.filter (fun i => decide (i.category = ItemCategory.bottom))
    dresses := items.filter (fun i => decide (i.category = ItemCategory.dress))
    outerwear := items.filter (fun i => decide (i.category = ItemCategory.outerwear))
    shoes := items.filter (fun i => decide (i.category = ItemCategory.shoes))
    accessories := items.filter (fun i => decide (i.category = ItemCategory.accessory)) }

/-- The random draws one loop attempt can consume.  `use_dress` stands for
`random.random() < 0.3`, `add_outerwear` for `random.random() < 0.4`, the
index fields for the `random.choice` calls (taken modulo the bucket length),
`num_acc` for `random.randint(1, 2)` (reduced to `1 + num_acc % 2`), and
`acc_pick` for the indices drawn by `random.sample`. -/
structure Decision where
  use_dress : Bool
  dress_idx : Nat
  top_idx : Nat
  bottom_idx : Nat
  add_outerwear : Bool
  outer_idx : Nat
  shoe_idx : Nat
  num_acc : Nat
  acc_pick : Nat → Nat

/-- `random.choice` on a non-empty list, the index taken modulo the length. -/
def rand_choice (l : List α) (i : Nat) (h : l ≠ []) : α :=
  l.get ⟨i % l.length, Nat.mod_lt i (List.length_pos.mpr h)⟩

/-- `OutfitGenerator._create_candidate_outfit`; `none` is the source's
`return None` (tops or bottoms bucket empty on the non-dress branch). -/
def create_candidate_outfit (c : Categorized) (d : Decision) :
    Option (List ClothingItem) :=
  let base : Option (List ClothingItem) :=
    if h : d.use_dress = true ∧ c.dresses ≠ [] then
      some [rand_choice c.dresses d.dress_idx h.2]
    else if h : c.tops ≠ [] ∧ c.bottoms ≠ [] then
      some [rand_choice c.tops d.top_idx h.1, rand_choice c.bottoms d.bottom_idx h.2]
    else none
  match base with
  | none => none
  | some candidate =>
    let candidate :=
      if h : c.outerwear ≠ [] ∧ d.add_outerwear = true then
        candidate ++ [rand_choice c.outerwear d.outer_idx h.1]
      else candidate
    let candidate :=
      if h : c.shoes ≠ [] then candidate ++ [rand_choice c.shoes d.shoe_idx h]
      else candidate
    let candidate :=
      if h : c.accessories ≠ [] then
        candidate ++ (List.range (min (1 + d.num_acc % 2) c.accessories.length)).map
          (fun j => rand_choice c.accessories (d.acc_pick j) h)
      else candidate
    some candidate

/-- `OutfitGenerator._is_valid_outfit` (its `request` argument is never read):
empty outfits are rejected, then the category set must contain `top` and
`bottom`, or contain `dress`. -/
def is_valid_outfit (outfit : List ClothingItem) : Bool :=
  if outfit.isEmpty then false
  else
    let categories := outfit.map (·.category)
    decide ((ItemCategory.top ∈ categories ∧ ItemCategory.bottom ∈ categories)
      ∨ ItemCategory.dress ∈ categories)

/-- The fields of the dict built by `OutfitGenerator._item_to_dict`; `color`
and `category` keep the enum (the source stores `.value`, an injective
image of it). -/
structure ItemDict where
  color : Color
  category : ItemCategory
  pattern : String
  formality_level : ℚ
  color_intensity : ℚ
  pattern_intensity : ℚ
deriving DecidableEq

/-- `OutfitGenerator._estimate_formality_level`. -/
def estimate_formality_level (item : ClothingItem) : ℚ :=
  let base_formality : ℚ :=
    match item.fit with
    | .structured => 0.9
    | .fitted => 0.8
    | .straight => 0.6
    | .relaxed => 0.4
    | .oversized => 0.3
    | .skinny => 0.5
    | .boot_cut => 0.5
    | .a_line => 0.7
    | _ => 0.5
  let base_formality :=
    if decide (item.category ∈ [ItemCategory.dress, ItemCategory.outerwear]) then
      base_formality + 0.1
    else if item.category = ItemCategory.accessory then base_formality - 0.1
    else base_formality
  max 0.1 (min 0.9 base_formality)

/-- `OutfitGenerator._estimate_color_intensity`. -/
def estimate_color_intensity (color : Color) : ℚ :=
  let intense_colors := [Color.red, .blue, .green, .purple, .pink, .orange]
  let neutral_colors := [Color.black, .white, .gray, .navy, .beige, .cream, .brown]
  if decide (color ∈ intense_colors) then 0.8
  else if decide (color ∈ neutral_colors) then 0.3
  else 0.5

/-- `OutfitGenerator._item_to_dict` (`item.pattern or 'none'` falls back on
a falsy pattern). -/
def item_to_dict (item : ClothingItem) : ItemDict :=
  { color := item.color
    category := item.category
    pattern := if pattern_truthy item.pattern then item.pattern.getD "" else "none"
    formality_level := estimate_formality_level item
    color_intensity := estimate_color_intensity item.color
    pattern_intensity := if pattern_truthy item.pattern then 0.8 else 0.2 }

/-- `OutfitGenerator._predict_ml_compatibility`; `none` embeds the
`ValueError` that `max()` / `min()` raise on an empty item list. -/
def predict_ml_compatibility (items : List ItemDict) : Option ℚ :=
  let colors := items.map (·.color)
  let color_score : ℚ := if colors.toFinset.card ≤ 2 then 0.9 else 0.7
  let categories := items.map (·.category)
  let category_score : ℚ := if categories.length ≥ 3 then 0.9 else 0.8
  match items.map (·.formality_level) with
  | [] => none
  | f :: fs =>
    let formality_variance := fs.foldl max f - fs.foldl min f
    let formality_score : ℚ := if formality_variance < 0.3 then 0.8 else 0.6
    some ((color_score + category_score + formality_score) / 3)

/-- `OutfitGenerator._generate_style_notes`. -/
def generate_style_notes (outfit : List ClothingItem) (user : UserInfo) :
    List String :=
  let notes : List String := []
  let notes :=
    if user.body_type = BodyType.triangle then
      notes ++ ["This outfit helps balance your proportions with emphasis on the upper body"]
    else if user.body_type = BodyType.inverted_triangle then
      notes ++ ["This outfit creates balance by adding volume to the lower body"]
    else if user.body_type = BodyType.rectangle then
      notes ++ ["This outfit creates the illusion of curves with strategic tailoring"]
    else notes
  let colors := (outfit.filter (fun item => decide (item.color ≠ Color.patterned))).map (·.color)
  if colors.toFinset.card ≤ 2 then
    notes ++ ["Monochromatic color scheme creates a sleek, elongated look"]
  else
    notes ++ ["Well-coordinated color palette with visual interest"]

/-- The `while` loop of `OutfitGenerator.generate_outfits`: `fuel` is the
number of attempts still allowed out of the budget of 1000, `attempt`
indexes the oracle, `outfits` is the accumulator.  `none` embeds an
uncaught exception (unreachable: valid candidates are non-empty). -/
def generate_loop (c : Categorized) (user : UserInfo) (occasion : OccasionInfo)
    (max_outfits : Nat) (oracle : Nat → Decision) :
    Nat → Nat → List Outfit → Option (List Outfit)
  | 0, _, outfits => some outfits
  | fuel + 1, attempt, outfits =>
    if outfits.length < max_outfits then
      match create_candidate_outfit c (oracle attempt) with
      | some candidate =>
        if is_valid_outfit candidate then
          match predict_ml_compatibility (candidate.map item_to_dict) with
          | some ml_score =>
            let rule_score := score_outfit_proportions candidate user
            let final_score := 0.6 * rule_score + 0.4 * ml_score
            let o : Outfit :=
              { outfit_id := outfits.length + 1
                items := candidate
                occasion_type := occasion.occasion_type
                compatibility_score := final_score
                style_notes := generate_style_notes candidate user }
            generate_loop c user occasion max_outfits oracle fuel (attempt + 1)
              (outfits ++ [o])
          | none => none
        else generate_loop c user occasion max_outfits oracle fuel (attempt + 1) outfits
      | none => generate_loop c user occasion max_outfits oracle fuel (attempt + 1) outfits
    else some outfits

/-- Stable insertion into a list sorted by `compatibility_score` descending:
the new element goes in front of the first element whose score does not
exceed it. -/
def insert_desc (x : Outfit) : List Outfit → List Outfit
  | [] => [x]
  | y :: l =>
    if y.compatibility_score ≤ x.compatibility_score then x :: y :: l
    else y :: insert_desc x l

/-- `outfits.sort(key=lambda x: x.compatibility_score, reverse=True)`:
Python's sort is exactly the stable descending sort, which this insertion
sort realises (sortedness and stability are proved below). -/
def sort_by_score_desc : List Outfit → List Outfit
  | [] => []
  | x :: l => insert_desc x (sort_by_score_desc l)

/-- `OutfitGenerator.generate_outfits` (attempt budget
`max_generation_attempts = 1000`). -/
def generate_outfits (oracle : Nat → Decision) (request : OutfitRequest) :
    Option (List Outfit) :=
  let filtered_items := filter_by_body_type request.inventory request.user_info.body_type
  let filtered_items := filter_by_occasion filtered_items request.occasion_info
  let categorized_items := categorize_items filtered_items
  (generate_loop categorized_items request.user_info request.occasion_info
      request.max_outfits oracle 1000 0 []).map
    (fun outfits => (sort_by_score_desc outfits).take request.max_outfits)

/-! ### Spec-side definitions

These follow the wording of the specification's claims (not the source);
each theorem below compares one of them with the embedded source code. -/

/-- The role a category plays in the body-type rules, per the spec:
`top`/`dress`/`outerwear` share the top role, `bottom` is its own role,
`shoes`/`accessory` have no role (exempt from body-type filtering). -/
inductive BodyRole where
  | upper | lower
deriving DecidableEq

/-- Spec role classification. -/
def role_of : ItemCategory → Option BodyRole
  | .top | .dress | .outerwear => some .upper
  | .bottom => some .lower
  | _ => none

/-- The keep-condition of claim C2 exactly as stated: the four checks are
applied role-wise, with `top`, `dress` and `outerwear` sharing the top role
for every one of the four checks (including fabric weight). -/
def spec_keep_body_type (item : ClothingItem) (bt : BodyType) : Bool :=
  match body_type_rules bt with
  | none => true
  | some r =>
    match role_of item.category with
    | none => true
    | some .upper =>
      decide (item.fit ∉ r.avoid_fits_top) && decide (item.fit ∈ r.top_fit)
        && decide (item.color ∈ r.recommended_colors_top)
        && decide (item.weight ∈ r.fabric_weight_top)
    | some .lower =>
      decide (item.fit ∉ r.avoid_fits_bottom) && decide (item.fit ∈ r.bottom_fit)
        && decide (item.color ∈ r.recommended_colors_bottom)
        && decide (item.weight ∈ r.fabric_weight_bottom)

/-- The role-wise checks of claim C2 against one rule-table entry, amended
by what the source does: the fabric-weight check is applied only to `top`
and `dress` items, `outerwear` is exempt from it (it still shares the top
role for the fit and color checks). -/
def spec_keep_with_rules (item : ClothingItem) (r : BodyRules) : Bool :=
  match role_of item.category with
  | none => true
  | some .upper =>
    decide (item.fit ∉ r.avoid_fits_top) && decide (item.fit ∈ r.top_fit)
      && decide (item.color ∈ r.recommended_colors_top)
      && (if decide (item.category ∈ [ItemCategory.top, ItemCategory.dress])
          then decide (item.weight ∈ r.fabric_weight_top) else true)
  | some .lower =>
    decide (item.fit ∉ r.avoid_fits_bottom) && decide (item.fit ∈ r.bottom_fit)
      && decide (item.color ∈ r.recommended_colors_bottom)
      && decide (item.weight ∈ r.fabric_weight_bottom)

/-- The keep-condition of claim C2 amended by what the source does (see
`spec_keep_with_rules`); a body type without a table entry keeps every
item. -/
def spec_keep_body_type_amended (item : ClothingItem) (bt : BodyType) : Bool :=
  match body_type_rules bt with
  | none => true
  | some r => spec_keep_with_rules item r

/-- The keep-condition of claim C3 exactly as stated: the fit must be in the
occasion's allowed-fits list for every occasion (an occasion without a rule
entry contributes the empty list), plus the two weather checks and the
business-only subcategory whitelist on `top` items. -/
def spec_keep_occasion (item : ClothingItem) (occasion : OccasionInfo) : Bool :=
  decide (item.fit ∈ ((occasion_rules occasion.occasion_type).map OccRules.allowed_fits).getD [])
    && !(decide (occasion.weather = WeatherCondition.hot) && decide (item.weight = "heavy"))
    && !(decide (occasion.weather = WeatherCondition.cold) && decide (item.weight = "light"))
    && (if occasion.occasion_type = OccasionType.business ∧ item.category = ItemCategory.top
        then decide (item.subcategory ∈ ["shirt", "blouse", "button-down"]) else true)

/-- The keep-condition of claim C3 amended by what the source does: the
allowed-fits check applies only when the occasion has a rule-table entry
(`casual`, `business`, `party`); `formal` and `glamorous` have none and skip
the fit check entirely. -/
def spec_keep_occasion_amended (item : ClothingItem) (occasion : OccasionInfo) : Bool :=
  (match occasion_rules occasion.occasion_type with
   | some r => decide (item.fit ∈ r.allowed_fits)
   | none => true)
    && !(decide (occasion.weather = WeatherCondition.hot) && decide (item.weight = "heavy"))
    && !(decide (occasion.weather = WeatherCondition.cold) && decide (item.weight = "light"))
    && (if occasion.occasion_type = OccasionType.business ∧ item.category = ItemCategory.top
        then decide (item.subcategory ∈ ["shirt", "blouse", "button-down"]) else true)

/-- Claim C4's item volume: base 0.5, one additive fit adjustment, one
additive weight adjustment, the item volume clamped to [0.1, 0.9]. -/
def spec_volume (item : ClothingItem) : ℚ :=
  let fit_adj : ℚ :=
    if decide (item.fit ∈ [FitType.oversized, FitType.relaxed]) then 0.3
    else if decide (item.fit ∈ [FitType.fitted, FitType.skinny]) then -0.3
    else 0
  let weight_adj : ℚ :=
    if item.weight = "heavy" then 0.2
    else if item.weight = "light" then -0.2
    else 0
  max 0.1 (min 0.9 (0.5 + fit_adj + weight_adj))

/-- Claim C4's value of the proportion score: 1.0, times 0.7 when there are
fewer than 3 distinct style elements, times a balance factor read off the
first top-role item and the first bottom item when both are present (0.6
when both volumes exceed 0.7, else 1.2 when they differ by more than 0.3,
else 1); the outfit score itself is never clamped. -/
def spec_proportion_score (outfit : List ClothingItem) : ℚ :=
  (if (elements_of outfit).card < 3 then (0.7 : ℚ) else 1) *
  (match outfit.find? (fun i =>
      decide (i.category ∈ [ItemCategory.top, ItemCategory.dress, ItemCategory.outerwear])),
    outfit.find? (fun i => decide (i.category = ItemCategory.bottom)) with
   | some t, some b =>
     if spec_volume t > 0.7 ∧ spec_volume b > 0.7 then 0.6
     else if |spec_volume t - spec_volume b| > 0.3 then 1.2
     else 1
   | _, _ => 1)

/-- Claim C5's heuristic score exactly as stated: the category sub-score is
0.9 when the outfit covers at least 3 *distinct* categories. -/
def spec_ml_value (outfit : List ClothingItem) : Option ℚ :=
  match outfit with
  | [] => none
  | x :: rest =>
    let color_score : ℚ := if ((x :: rest).map (·.color)).toFinset.card ≤ 2 then 0.9 else 0.7
    let category_score : ℚ :=
      if ((x :: rest).map (·.category)).toFinset.card ≥ 3 then 0.9 else 0.8
    let f := estimate_formality_level x
    let fs := rest.map estimate_formality_level
    let formality_score : ℚ := if fs.foldl max f - fs.foldl min f < 0.3 then 0.8 else 0.6
    some ((color_score + category_score + formality_score) / 3)

/-- Claim C5 amended by what the source does: the category sub-score is 0.9
when the outfit has at least 3 *items* (`len(categories)` is the length of a
list with one entry per item, not a set). -/
def spec_ml_value_amended (outfit : List ClothingItem) : Option ℚ :=
  match outfit with
  | [] => none
  | x :: rest =>
    let color_score : ℚ := if ((x :: rest).map (·.color)).toFinset.card ≤ 2 then 0.9 else 0.7
    let category_score : ℚ := if (x :: rest).length ≥ 3 then 0.9 else 0.8
    let f := estimate_formality_level x
    let fs := rest.map estimate_formality_level
    let formality_score : ℚ := if fs.foldl max f - fs.foldl min f < 0.3 then 0.8 else 0.6
    some ((color_score + category_score + formality_score) / 3)

/-- Claim C10's body-type note, as amended: a fixed text for `triangle`,
`inverted_triangle` and `rectangle`, and no note at all for `hourglass` and
`oval` (the claim as stated promises a note for every body-type value). -/
def spec_body_type_note : BodyType → List String
  | .triangle => ["This outfit helps balance your proportions with emphasis on the upper body"]
  | .inverted_triangle => ["This outfit creates balance by adding volume to the lower body"]
  | .rectangle => ["This outfit creates the illusion of curves with strategic tailoring"]
  | _ => []

/-- Claim C10's color-coordination note: the monochromatic text when the
outfit has at most 2 distinct non-`patterned` colors, else the
coordinated-palette text. -/
def spec_color_note (outfit : List ClothingItem) : String :=
  if ((outfit.filter (fun i => decide (i.color ≠ Color.patterned))).map (·.color)).toFinset.card ≤ 2
  then "Monochromatic color scheme creates a sleek, elongated look"
  else "Well-coordinated color palette with visual interest"

/-! ### Concrete inputs used by witnesses and counterexamples -/

/-- A fitted black top. -/
def ex_top : ClothingItem :=
  ⟨"t1", .top, "blouse", .black, none, "cotton", "medium", .fitted⟩

/-- A straight navy bottom. -/
def ex_bottom : ClothingItem :=
  ⟨"b1", .bottom, "Straight Trousers", .navy, none, "wool", "medium", .straight⟩

/-- A fitted red heavy outerwear piece: its fit and color pass the
`triangle` top-role checks, but its fabric weight is outside the `triangle`
top-role fabric-weight list. -/
def ex_outerwear_heavy : ClothingItem :=
  ⟨"o1", .outerwear, "Coat", .red, none, "wool", "heavy", .fitted⟩

/-- A slim-fit bottom: `slim` is in no occasion's allowed-fits list. -/
def ex_bottom_slim : ClothingItem :=
  ⟨"b2", .bottom, "Slim Pants", .gray, none, "cotton", "medium", .slim⟩

/-- An a-line black dress. -/
def ex_dress : ClothingItem :=
  ⟨"d1", .dress, "A-line Dress", .black, none, "silk", "medium", .a_line⟩

/-- A white accessory. -/
def ex_acc1 : ClothingItem :=
  ⟨"a1", .accessory, "Belt", .white, none, "leather", "light", .regular⟩

/-- A red accessory. -/
def ex_acc2 : ClothingItem :=
  ⟨"a2", .accessory, "Scarf", .red, none, "silk", "light", .regular⟩

/-- An `hourglass` user: no body-type rule entry, no body-type style note. -/
def ex_user_hg : UserInfo := ⟨"u1", .hourglass⟩

/-- A `formal` occasion in warm weather: no occasion rule entry. -/
def ex_occ_formal : OccasionInfo := ⟨.formal, .warm, "evening", 3⟩

/-- One fixed draw record (dress branch not taken, all indices 0). -/
def ex_decision : Decision := ⟨false, 0, 0, 0, false, 0, 0, 0, fun _ => 0⟩

/-- A constant oracle. -/
def ex_oracle : Nat → Decision := fun _ => ex_decision

/-- A request whose post-filter pool is exactly one top and one bottom. -/
def ex_request : OutfitRequest := ⟨ex_user_hg, ex_occ_formal, [ex_top, ex_bottom], 1⟩

/-- The single outfit `generate_outfits ex_oracle ex_request` produces. -/
def ex_outfit : Outfit :=
  { outfit_id := 1
    items := [ex_top, ex_bottom]
    occasion_type := .formal
    compatibility_score := 14/15
    style_notes := ["Monochromatic color scheme creates a sleek, elongated look"] }

/-- A request with an empty inventory (all buckets empty after filtering). -/
def ex_request_empty : OutfitRequest := ⟨ex_user_hg, ex_occ_formal, [], 5⟩

/-- Stability relation of claim C6: among outfits of equal score, generation
order (recorded by the sequential `outfit_id`) is respected. -/
def stable_rel (a b : Outfit) : Prop :=
  a.compatibility_score = b.compatibility_score → a.outfit_id < b.outfit_id

/-! ### Helper lemmas -/

lemma item_to_dict_color (i : ClothingItem) : (item_to_dict i).color = i.color := rfl

lemma item_to_dict_formality (i : ClothingItem) :
    (item_to_dict i).formality_level = estimate_formality_level i := rfl

set_option maxHeartbeats 1000000 in
lemma is_item_compatible_some (item : ClothingItem) (r : BodyRules) :
    is_item_compatible item (some r) = spec_keep_with_rules item r := by
  cases h : item.category <;>
    simp only [is_item_compatible, spec_keep_with_rules, role_of, h] <;>
    split_ifs <;> simp_all

lemma is_item_compatible_eq_spec_amended (item : ClothingItem) (bt : BodyType) :
    is_item_compatible item (body_type_rules bt) = spec_keep_body_type_amended item bt := by
  cases bt <;> first | rfl | exact is_item_compatible_some item _

set_option maxHeartbeats 1000000 in
lemma is_item_occasion_compatible_eq_spec_amended (item : ClothingItem) (occ : OccasionInfo) :
    is_item_occasion_compatible item (occasion_rules occ.occasion_type) occ =
      spec_keep_occasion_amended item occ := by
  cases hocc : occ.occasion_type <;>
    simp only [is_item_occasion_compatible, spec_keep_occasion_amended, occasion_rules, hocc] <;>
    split_ifs <;> simp_all <;> tauto

lemma generate_loop_stop {c : Categorized} {u : UserInfo} {occ : OccasionInfo} {m : Nat}
    {oracle : Nat → Decision} {attempt : Nat} {acc : List Outfit}
    (h : ¬ acc.length < m) (fuel : Nat) :
    generate_loop c u occ m oracle (fuel + 1) attempt acc = some acc := by
  simp [generate_loop, h]

lemma generate_loop_add {c : Categorized} {u : UserInfo} {occ : OccasionInfo} {m : Nat}
    {oracle : Nat → Decision} {attempt : Nat} {acc : List Outfit}
    {cand : List ClothingItem} {ml : ℚ}
    (hlen : acc.length < m)
    (hc : create_candidate_outfit c (oracle attempt) = some cand)
    (hv : is_valid_outfit cand = true)
    (hml : predict_ml_compatibility (cand.map item_to_dict) = some ml) (fuel : Nat) :
    generate_loop c u occ m oracle (fuel + 1) attempt acc =
      generate_loop c u occ m oracle fuel (attempt + 1)
        (acc ++ [{ outfit_id := acc.length + 1
                   items := cand
                   occasion_type := occ.occasion_type
                   compatibility_score :=
                     0.6 * score_outfit_proportions cand u + 0.4 * ml
                   style_notes := generate_style_notes cand u }]) := by
  simp [generate_loop, hlen, hc, hv, hml]

/-- Evaluation of the filtering and bucketing stages on `ex_request`. -/
lemma ex_categorized_eval :
    categorize_items (filter_by_occasion
      (filter_by_body_type ex_request.inventory ex_request.user_info.body_type)
      ex_request.occasion_info) = ⟨[ex_top], [ex_bottom], [], [], [], []⟩ := by
  decide

/-- Evaluation of candidate assembly on `ex_request`'s buckets. -/
lemma ex_candidate_eval :
    create_candidate_outfit ⟨[ex_top], [ex_bottom], [], [], [], []⟩ ex_decision =
      some [ex_top, ex_bottom] := by
  decide

/-- Heuristic score of the `ex_top`/`ex_bottom` pair. -/
lemma ex_ml_eval :
    predict_ml_compatibility ([ex_top, ex_bottom].map item_to_dict) = some (5/6) := by
  norm_num +decide [predict_ml_compatibility, item_to_dict, estimate_formality_level,
    estimate_color_intensity, pattern_truthy, ex_top, ex_bottom, min_def, max_def]

/-- Proportion score of the `ex_top`/`ex_bottom` pair. -/
lemma ex_rule_score_eval : score_outfit_proportions [ex_top, ex_bottom] ex_user_hg = 1 := by
  norm_num +decide [score_outfit_proportions, elements_of, estimate_volume, pattern_truthy,
    ex_top, ex_bottom, ex_user_hg, min_def, max_def, List.filter, abs_of_nonneg]

/-- Style notes of the `ex_top`/`ex_bottom` pair for an `hourglass` user. -/
lemma ex_notes_eval :
    generate_style_notes [ex_top, ex_bottom] ex_user_hg =
      ["Monochromatic color scheme creates a sleek, elongated look"] := by
  decide

/-- Full evaluation of the generator on `ex_request`: exactly one outfit. -/
lemma ex_generate_eval : generate_outfits ex_oracle ex_request = some [ex_outfit] := by
  have h0 : (1000 : Nat) = 999 + 1 := rfl
  simp only [generate_outfits, ex_categorized_eval, h0]
  rw [generate_loop_add (by decide)
      (by rw [show ex_oracle 0 = ex_decision from rfl]; exact ex_candidate_eval)
      (by decide) ex_ml_eval 999]
  have h1 : (999 : Nat) = 998 + 1 := rfl
  rw [h1, generate_loop_stop (by simp [ex_request]) 998]
  simp [ex_rule_score_eval, ex_ml_eval, ex_notes_eval, sort_by_score_desc, insert_desc,
    ex_outfit, ex_request, ex_occ_formal]
  norm_num [ex_rule_score_eval]
lemma mem_insert_desc {x z : Outfit} : ∀ {l : List Outfit},
    z ∈ insert_desc x l ↔ z = x ∨ z ∈ l := by
  intro l
  induction l with
  | nil => simp [insert_desc]
  | cons y ys ih =>
    simp only [insert_desc]
    split_ifs <;> simp [ih]
    tauto

lemma mem_sort_desc {z : Outfit} : ∀ {l : List Outfit},
    z ∈ sort_by_score_desc l ↔ z ∈ l := by
  intro l
  induction l with
  | nil => simp [sort_by_score_desc]
  | cons y ys ih => simp [sort_by_score_desc, mem_insert_desc, ih]

lemma insert_desc_sorted {x : Outfit} : ∀ {l : List Outfit},
    l.Pairwise (fun a b => b.compatibility_score ≤ a.compatibility_score) →
    (insert_desc x l).Pairwise (fun a b => b.compatibility_score ≤ a.compatibility_score) := by
  intro l
  induction l with
  | nil => intro _; simp [insert_desc]
  | cons y ys ih =>
    intro hl
    rw [List.pairwise_cons] at hl
    simp only [insert_desc]
    split_ifs with hle
    · refine List.Pairwise.cons ?_ (List.Pairwise.cons hl.1 hl.2)
      intro z hz
      rcases List.mem_cons.mp hz with rfl | hz
      · exact hle
      · exact le_trans (hl.1 z hz) hle
    · refine List.Pairwise.cons ?_ (ih hl.2)
      intro z hz
      rcases mem_insert_desc.mp hz with rfl | hz
      · exact le_of_lt (lt_of_not_le hle)
      · exact hl.1 z hz

lemma sort_desc_sorted : ∀ {l : List Outfit},
    (sort_by_score_desc l).Pairwise
      (fun a b => b.compatibility_score ≤ a.compatibility_score) := by
  intro l
  induction l with
  | nil => simp [sort_by_score_desc]
  | cons y ys ih => exact insert_desc_sorted ih

lemma insert_desc_stable {x : Outfit} : ∀ {l : List Outfit},
    (∀ z ∈ l, stable_rel x z) → l.Pairwise stable_rel →
    (insert_desc x l).Pairwise stable_rel := by
  intro l
  induction l with
  | nil => intro _ _; simp [insert_desc]
  | cons y ys ih =>
    intro hx hl
    rw [List.pairwise_cons] at hl
    simp only [insert_desc]
    split_ifs with hle
    · refine List.Pairwise.cons ?_ (List.Pairwise.cons hl.1 hl.2)
      intro z hz
      rcases List.mem_cons.mp hz with rfl | hz
      · exact hx z (List.mem_cons_self _ _)
      · exact hx z (List.mem_cons_of_mem _ hz)
    · refine List.Pairwise.cons ?_ (ih (fun z hz => hx z (List.mem_cons_of_mem _ hz)) hl.2)
      intro z hz
      rcases mem_insert_desc.mp hz with rfl | hz
      · intro heq; exact absurd heq.le hle
      · exact hl.1 z hz

lemma sort_desc_stable : ∀ {l : List Outfit},
    l.Pairwise stable_rel → (sort_by_score_desc l).Pairwise stable_rel := by
  intro l
  induction l with
  | nil => intro _; simp [sort_by_score_desc]
  | cons y ys ih =>
    intro hl
    rw [List.pairwise_cons] at hl
    exact insert_desc_stable
      (fun z hz => hl.1 z (mem_sort_desc.mp hz)) (ih hl.2)

/-- Every outfit in a successful loop run either was in the accumulator or
is a freshly assembled, validity-checked, freshly scored outfit. -/
lemma generate_loop_mem_sound {c : Categorized} {u : UserInfo} {occ : OccasionInfo}
    {m : Nat} {oracle : Nat → Decision} (P : Outfit → Prop)
    (hP : ∀ n cand ml, is_valid_outfit cand = true →
      predict_ml_compatibility (cand.map item_to_dict) = some ml →
      P { outfit_id := n, items := cand, occasion_type := occ.occasion_type,
          compatibility_score := 0.6 * score_outfit_proportions cand u + 0.4 * ml,
          style_notes := generate_style_notes cand u }) :
    ∀ fuel attempt acc res, (∀ x ∈ acc, P x) →
      generate_loop c u occ m oracle fuel attempt acc = some res →
      ∀ x ∈ res, P x := by
  intro fuel
  induction fuel with
  | zero =>
    intro attempt acc res hacc hres
    simp only [generate_loop, Option.some.injEq] at hres
    subst hres; exact hacc
  | succ fuel ih =>
    intro attempt acc res hacc hres
    rw [generate_loop] at hres
    by_cases hlen : acc.length < m
    · rw [if_pos hlen] at hres
      cases hc : create_candidate_outfit c (oracle attempt) with
      | none => simp only [hc] at hres; exact ih _ _ _ hacc hres
      | some cand =>
        simp only [hc] at hres
        by_cases hv : is_valid_outfit cand = true
        · rw [if_pos hv] at hres
          cases hml : predict_ml_compatibility (cand.map item_to_dict) with
          | none => simp only [hml] at hres; exact absurd hres (by simp)
          | some ml =>
            simp only [hml] at hres
            refine ih _ _ _ ?_ hres
            intro x hx
            rcases List.mem_append.mp hx with hx | hx
            · exact hacc x hx
            · rw [List.mem_singleton.mp hx]
              exact hP _ _ _ hv hml
        · rw [if_neg hv] at hres; exact ih _ _ _ hacc hres
    · rw [if_neg hlen] at hres
      rw [Option.some.injEq] at hres
      subst hres; exact hacc

/-- A successful loop run extends an id-consistent accumulator to an
id-increasing result: ids are assigned sequentially in generation order. -/
lemma generate_loop_ids {c : Categorized} {u : UserInfo} {occ : OccasionInfo}
    {m : Nat} {oracle : Nat → Decision} :
    ∀ fuel attempt acc res,
      (∀ x ∈ acc, x.outfit_id ≤ acc.length) →
      acc.Pairwise (fun a b => a.outfit_id < b.outfit_id) →
      generate_loop c u occ m oracle fuel attempt acc = some res →
      res.Pairwise (fun a b => a.outfit_id < b.outfit_id) := by
  intro fuel
  induction fuel with
  | zero =>
    intro attempt acc res _ hpw hres
    simp only [generate_loop, Option.some.injEq] at hres
    subst hres; exact hpw
  | succ fuel ih =>
    intro attempt acc res hle hpw hres
    rw [generate_loop] at hres
    by_cases hlen : acc.length < m
    · rw [if_pos hlen] at hres
      cases hc : create_candidate_outfit c (oracle attempt) with
      | none => simp only [hc] at hres; exact ih _ _ _ hle hpw hres
      | some cand =>
        simp only [hc] at hres
        by_cases hv : is_valid_outfit cand = true
        · rw [if_pos hv] at hres
          cases hml : predict_ml_compatibility (cand.map item_to_dict) with
          | none => simp only [hml] at hres; exact absurd hres (by simp)
          | some ml =>
            simp only [hml] at hres
            refine ih _ _ _ ?_ ?_ hres
            · intro x hx
              rcases List.mem_append.mp hx with hx | hx
              · simp only [List.length_append, List.length_singleton]
                exact le_trans (hle x hx) (Nat.le_succ _)
              · rw [List.mem_singleton.mp hx]; simp
            · rw [List.pairwise_append]
              refine ⟨hpw, List.pairwise_singleton _ _, ?_⟩
              intro a ha b hb
              rw [List.mem_singleton.mp hb]
              exact Nat.lt_succ_of_le (hle a ha)
        · rw [if_neg hv] at hres; exact ih _ _ _ hle hpw hres
    · rw [if_neg hlen] at hres
      rw [Option.some.injEq] at hres
      subst hres; exact hpw

/-- Unpacking `generate_outfits`: a successful run is a successful loop run
followed by the stable descending sort and the truncation. -/
lemma generate_outfits_unpack {oracle : Nat → Decision} {request : OutfitRequest}
    {res : List Outfit} (h : generate_outfits oracle request = some res) :
    ∃ gen, generate_loop
        (categorize_items (filter_by_occasion
          (filter_by_body_type request.inventory request.user_info.body_type)
          request.occasion_info))
        request.user_info request.occasion_info request.max_outfits oracle 1000 0 []
        = some gen ∧
      res = (sort_by_score_desc gen).take request.max_outfits := by
  unfold generate_outfits at h
  cases hg : generate_loop
      (categorize_items (filter_by_occasion
        (filter_by_body_type request.inventory request.user_info.body_type)
        request.occasion_info))
      request.user_info request.occasion_info request.max_outfits oracle 1000 0 [] with
  | none => simp only [hg] at h; exact absurd h (by simp)
  | some gen =>
    simp only [hg, Option.map_some', Option.some.injEq] at h
    exact ⟨gen, rfl, h.symm⟩

lemma score_outfit_proportions_bounds (outfit : List ClothingItem) (u : UserInfo) :
    0 ≤ score_outfit_proportions outfit u ∧ score_outfit_proportions outfit u ≤ 1.2 := by
  simp only [score_outfit_proportions]
  rcases ht : outfit.filter (fun item =>
      decide (item.category ∈ [ItemCategory.top, ItemCategory.dress, ItemCategory.outerwear]))
    with _ | ⟨t, ts⟩ <;>
  rcases hb : outfit.filter (fun item => decide (item.category = ItemCategory.bottom))
    with _ | ⟨b, bs⟩ <;>
  rw [ht, hb] <;> dsimp only <;> refine ⟨?_, ?_⟩ <;> split_ifs <;> norm_num

lemma predict_ml_bounds {items : List ItemDict} {ml : ℚ}
    (h : predict_ml_compatibility items = some ml) : 0 ≤ ml ∧ ml ≤ 13/15 := by
  cases items with
  | nil => exact absurd h (by simp [predict_ml_compatibility])
  | cons x rest =>
    simp only [predict_ml_compatibility, List.map_cons, Option.some.injEq] at h
    subst h
    split_ifs <;> norm_num

lemma is_valid_outfit_iff (l : List ClothingItem) :
    is_valid_outfit l = true ↔
      (∃ i ∈ l, i.category = ItemCategory.dress) ∨
      ((∃ i ∈ l, i.category = ItemCategory.top) ∧
        (∃ i ∈ l, i.category = ItemCategory.bottom)) := by
  rcases l with _ | ⟨x, xs⟩
  · simp [is_valid_outfit]
  · simp only [is_valid_outfit, List.isEmpty_cons, Bool.false_eq_true, if_false,
      decide_eq_true_eq, List.mem_map]
    exact or_comm

lemma create_candidate_outfit_none {c : Categorized}
    (h1 : c.tops = []) (h2 : c.bottoms = []) (h3 : c.dresses = []) (d : Decision) :
    create_candidate_outfit c d = none := by
  simp [create_candidate_outfit, h1, h2, h3]

lemma generate_loop_none_candidates {c : Categorized} {u : UserInfo} {occ : OccasionInfo}
    {m : Nat} {oracle : Nat → Decision}
    (hc : ∀ d, create_candidate_outfit c d = none) :
    ∀ fuel attempt, generate_loop c u occ m oracle fuel attempt [] = some [] := by
  intro fuel
  induction fuel with
  | zero => intro _; rfl
  | succ fuel ih =>
    intro attempt
    rw [generate_loop]
    by_cases h : ([] : List Outfit).length < m
    · rw [if_pos h, hc (oracle attempt)]
      exact ih (attempt + 1)
    · rw [if_neg h]


lemma head_filter_eq_find (p : α → Bool) : ∀ l : List α, (l.filter p).head? = l.find? p := by
  intro l
  induction l with
  | nil => rfl
  | cons x xs ih =>
    by_cases h : p x = true <;> simp [List.filter_cons, List.find?_cons, h, ih]

/-- The source's sequential volume adjustments agree with the claim's
single-sum form (the `user_info` argument is dead in both). -/
lemma estimate_volume_eq_spec (item : ClothingItem) (u : UserInfo) :
    estimate_volume item u = spec_volume item := by
  simp only [estimate_volume, spec_volume]
  split_ifs <;> norm_num

/-! ### The claims -/

/-- C1: every outfit returned by `generate_outfits`, for every request and
every sequence of random choices, contains a dress, or both a top and a
bottom. -/
theorem claim_C1 (oracle : Nat → Decision) (request : OutfitRequest) (res : List Outfit)
    (h : generate_outfits oracle request = some res) :
    ∀ o ∈ res, (∃ i ∈ o.items, i.category = ItemCategory.dress) ∨
      ((∃ i ∈ o.items, i.category = ItemCategory.top) ∧
        (∃ i ∈ o.items, i.category = ItemCategory.bottom)) := by
  obtain ⟨gen, hg, hres⟩ := generate_outfits_unpack h
  have hmem : ∀ x ∈ gen, is_valid_outfit x.items = true := by
    refine generate_loop_mem_sound (fun o => is_valid_outfit o.items = true)
      ?_ 1000 0 [] gen (by simp) hg
    intro n cand ml hv _
    exact hv
  intro o ho
  rw [hres] at ho
  exact (is_valid_outfit_iff o.items).mp
    (hmem o (mem_sort_desc.mp (List.take_subset _ _ ho)))

/-- Witness for C1 at the concrete run `ex_oracle` / `ex_request`. -/
theorem claim_C1_witness :
    (∃ i ∈ ex_outfit.items, i.category = ItemCategory.dress) ∨
      ((∃ i ∈ ex_outfit.items, i.category = ItemCategory.top) ∧
        (∃ i ∈ ex_outfit.items, i.category = ItemCategory.bottom)) :=
  claim_C1 ex_oracle ex_request [ex_outfit] ex_generate_eval ex_outfit (by simp)

/-- C2 (amended): `filter_by_body_type` keeps an item iff the role-wise
fit/avoid/color checks of the claim hold, with the fabric-weight check
applied only to `top` and `dress` items — `outerwear` is exempt from the
weight check; shoes/accessories and body types without a table entry always
pass. -/
theorem claim_C2 (items : List ClothingItem) (bt : BodyType) :
    filter_by_body_type items bt =
      items.filter (fun item => spec_keep_body_type_amended item bt) := by
  simp only [filter_by_body_type, is_item_compatible_eq_spec_amended]

/-- Counterexample to C2 as stated: a fitted red heavy `outerwear` item is
kept by the code for body type `triangle`, although the claimed top-role
fabric-weight check rejects `heavy`. -/
theorem claim_C2_counterexample :
    filter_by_body_type [ex_outerwear_heavy] BodyType.triangle = [ex_outerwear_heavy] ∧
      spec_keep_body_type ex_outerwear_heavy BodyType.triangle = false := by
  decide

/-- C3 (amended): `filter_by_occasion` keeps an item iff its fit passes the
occasion's allowed-fits check — which applies only when the occasion has a
rule-table entry (`casual`, `business`, `party`); `formal` and `glamorous`
have none and skip it — plus the two weather checks and the business-only
subcategory whitelist on `top` items. -/
theorem claim_C3 (items : List ClothingItem) (occ : OccasionInfo) :
    filter_by_occasion items occ =
      items.filter (fun item => spec_keep_occasion_amended item occ) := by
  simp only [filter_by_occasion, is_item_occasion_compatible_eq_spec_amended]

/-- Counterexample to C3 as stated: a `slim`-fit bottom is kept for the
`formal` occasion although `slim` is in no allowed-fits list (the claim
requires the fit check for every occasion). -/
theorem claim_C3_counterexample :
    filter_by_occasion [ex_bottom_slim] ex_occ_formal = [ex_bottom_slim] ∧
      spec_keep_occasion ex_bottom_slim ex_occ_formal = false := by
  decide

/-- C4: for every non-empty outfit, `score_outfit_proportions` returns
exactly 1.0, times 0.7 when there are fewer than 3 distinct style elements,
times the volume-balance factor (0.6 / 1.2 / 1) computed from the first
top-role and first bottom items via the clamped item-volume formula; the
outfit score itself is never clamped. -/
theorem claim_C4 (outfit : List ClothingItem) (user : UserInfo) (_h : outfit ≠ []) :
    score_outfit_proportions outfit user = spec_proportion_score outfit := by
  have e1 := head_filter_eq_find (fun item =>
    decide (item.category ∈ [ItemCategory.top, ItemCategory.dress, ItemCategory.outerwear]))
    outfit
  have e2 := head_filter_eq_find (fun item => decide (item.category = ItemCategory.bottom))
    outfit
  simp only [score_outfit_proportions, spec_proportion_score, ← e1, ← e2,
    estimate_volume_eq_spec]
  rcases ht : outfit.filter (fun item =>
      decide (item.category ∈ [ItemCategory.top, ItemCategory.dress, ItemCategory.outerwear]))
    with _ | ⟨t, ts⟩ <;>
  rcases hb : outfit.filter (fun item => decide (item.category = ItemCategory.bottom))
    with _ | ⟨b, bs⟩ <;>
  rw [ht, hb] <;> simp only [List.head?] <;> split_ifs <;> norm_num

/-- Witness for C4 at the concrete pair `ex_top` / `ex_bottom`. -/
theorem claim_C4_witness :
    ([ex_top, ex_bottom] : List ClothingItem) ≠ [] ∧
      score_outfit_proportions [ex_top, ex_bottom] ex_user_hg =
        spec_proportion_score [ex_top, ex_bottom] :=
  ⟨by simp, claim_C4 [ex_top, ex_bottom] ex_user_hg (by simp)⟩

/-- C5 (amended): the heuristic compatibility score is the unweighted mean
of the three sub-scores, with the category sub-score 0.9 when the outfit
has at least 3 *items* (not 3 distinct categories). -/
theorem claim_C5 (outfit : List ClothingItem) :
    predict_ml_compatibility (outfit.map item_to_dict) = spec_ml_value_amended outfit := by
  cases outfit with
  | nil => rfl
  | cons x rest =>
    simp [predict_ml_compatibility, spec_ml_value_amended, List.map_map, Function.comp_def,
      item_to_dict_color, item_to_dict_formality]

/-- Counterexample to C5 as stated: a dress with two accessories has 3
items but only 2 distinct categories, so the code scores the category
sub-score 0.9 where the claim predicts 0.8, giving 11/15 against the
claimed 7/10. -/
theorem claim_C5_counterexample :
    predict_ml_compatibility ([ex_dress, ex_acc1, ex_acc2].map item_to_dict) =
        some (11/15) ∧
      spec_ml_value [ex_dress, ex_acc1, ex_acc2] = some (7/10) ∧
      (11/15 : ℚ) ≠ 7/10 := by
  refine ⟨?_, ?_, by norm_num⟩
  · norm_num +decide [predict_ml_compatibility, item_to_dict, estimate_formality_level,
      estimate_color_intensity, ex_dress, ex_acc1, ex_acc2, pattern_truthy, min_def, max_def]
  · norm_num +decide [spec_ml_value, estimate_formality_level, ex_dress, ex_acc1, ex_acc2,
      min_def, max_def]

/-- C6: for every request and oracle, the returned list is at most
`max_outfits` long, sorted by compatibility score descending, and stable:
outfits of equal score keep their generation order (sequential
`outfit_id`). -/
theorem claim_C6 (oracle : Nat → Decision) (request : OutfitRequest) (res : List Outfit)
    (h : generate_outfits oracle request = some res) :
    res.length ≤ request.max_outfits ∧
      res.Pairwise (fun a b => b.compatibility_score ≤ a.compatibility_score) ∧
      res.Pairwise (fun a b =>
        a.compatibility_score = b.compatibility_score → a.outfit_id < b.outfit_id) := by
  obtain ⟨gen, hg, hres⟩ := generate_outfits_unpack h
  subst hres
  refine ⟨?_, ?_, ?_⟩
  · rw [List.length_take]
    exact min_le_left _ _
  · exact List.Pairwise.sublist (List.take_sublist _ _) sort_desc_sorted
  · have hids := generate_loop_ids 1000 0 [] gen (by simp) (by simp) hg
    have hstable : gen.Pairwise stable_rel :=
      hids.imp (fun hab => fun _ => hab)
    exact List.Pairwise.sublist (List.take_sublist _ _) (sort_desc_stable hstable)

/-- Witness for C6 at the concrete run `ex_oracle` / `ex_request`. -/
theorem claim_C6_witness :
    ([ex_outfit].length ≤ ex_request.max_outfits ∧
      List.Pairwise (fun a b => b.compatibility_score ≤ a.compatibility_score) [ex_outfit] ∧
      List.Pairwise (fun a b =>
        a.compatibility_score = b.compatibility_score → a.outfit_id < b.outfit_id)
        [ex_outfit]) :=
  claim_C6 ex_oracle ex_request [ex_outfit] ex_generate_eval

/-- C7: when the post-filter top, bottom and dress buckets are all empty,
the generator returns the empty list for every oracle, never raising; the
embedded loop is structurally bounded by the 1000-attempt budget. -/
theorem claim_C7 (oracle : Nat → Decision) (request : OutfitRequest)
    (h1 : (categorize_items (filter_by_occasion
      (filter_by_body_type request.inventory request.user_info.body_type)
      request.occasion_info)).tops = [])
    (h2 : (categorize_items (filter_by_occasion
      (filter_by_body_type request.inventory request.user_info.body_type)
      request.occasion_info)).bottoms = [])
    (h3 : (categorize_items (filter_by_occasion
      (filter_by_body_type request.inventory request.user_info.body_type)
      request.occasion_info)).dresses = []) :
    generate_outfits oracle request = some [] := by
  have hnone : ∀ d, create_candidate_outfit (categorize_items (filter_by_occasion
      (filter_by_body_type request.inventory request.user_info.body_type)
      request.occasion_info)) d = none :=
    fun d => create_candidate_outfit_none h1 h2 h3 d
  unfold generate_outfits
  simp only [generate_loop_none_candidates hnone 1000 0, Option.map_some',
    sort_by_score_desc, List.take_nil]

/-- Witness for C7 at the concrete empty-inventory request. -/
theorem claim_C7_witness :
    (categorize_items (filter_by_occasion
      (filter_by_body_type ex_request_empty.inventory ex_request_empty.user_info.body_type)
      ex_request_empty.occasion_info)).tops = [] ∧
    (categorize_items (filter_by_occasion
      (filter_by_body_type ex_request_empty.inventory ex_request_empty.user_info.body_type)
      ex_request_empty.occasion_info)).bottoms = [] ∧
    (categorize_items (filter_by_occasion
      (filter_by_body_type ex_request_empty.inventory ex_request_empty.user_info.body_type)
      ex_request_empty.occasion_info)).dresses = [] ∧
    generate_outfits ex_oracle ex_request_empty = some [] :=
  ⟨rfl, rfl, rfl, claim_C7 ex_oracle ex_request_empty rfl rfl rfl⟩

/-- C8: every returned outfit's compatibility score
`0.6 * rule_score + 0.4 * heuristic_score` lies in `[0, 16/15]`. -/
theorem claim_C8 (oracle : Nat → Decision) (request : OutfitRequest) (res : List Outfit)
    (h : generate_outfits oracle request = some res) :
    ∀ o ∈ res, 0 ≤ o.compatibility_score ∧ o.compatibility_score ≤ 16/15 := by
  obtain ⟨gen, hg, hres⟩ := generate_outfits_unpack h
  have hmem : ∀ x ∈ gen,
      0 ≤ x.compatibility_score ∧ x.compatibility_score ≤ 16/15 := by
    refine generate_loop_mem_sound
      (fun o => 0 ≤ o.compatibility_score ∧ o.compatibility_score ≤ 16/15)
      ?_ 1000 0 [] gen (by simp) hg
    intro n cand ml hv hml
    have h1 := score_outfit_proportions_bounds cand request.user_info
    have h2 := predict_ml_bounds hml
    constructor
    · show (0:ℚ) ≤ 0.6 * score_outfit_proportions cand request.user_info + 0.4 * ml
      obtain ⟨h1a, -⟩ := h1
      obtain ⟨h2a, -⟩ := h2
      nlinarith
    · show (0.6 * score_outfit_proportions cand request.user_info + 0.4 * ml : ℚ) ≤ 16/15
      obtain ⟨-, h1b⟩ := h1
      obtain ⟨-, h2b⟩ := h2
      nlinarith
  intro o ho
  rw [hres] at ho
  exact hmem o (mem_sort_desc.mp (List.take_subset _ _ ho))

/-- Witness for C8 at the concrete run `ex_oracle` / `ex_request`. -/
theorem claim_C8_witness :
    0 ≤ ex_outfit.compatibility_score ∧ ex_outfit.compatibility_score ≤ 16/15 :=
  claim_C8 ex_oracle ex_request [ex_outfit] ex_generate_eval ex_outfit (by simp)

/-- C9: both filters are idempotent — re-filtering an already-filtered pool
by the same body type / occasion returns it unchanged. -/
theorem claim_C9 (items : List ClothingItem) (bt : BodyType) (occ : OccasionInfo) :
    filter_by_body_type (filter_by_body_type items bt) bt = filter_by_body_type items bt ∧
      filter_by_occasion (filter_by_occasion items occ) occ =
        filter_by_occasion items occ := by
  constructor <;> simp [filter_by_body_type, filter_by_occasion, List.filter_filter]

/-- C10 (amended): the style notes are a body-type note for `triangle`,
`inverted_triangle` and `rectangle` — no body-type note for `hourglass` or
`oval` — followed by the color-coordination note (monochromatic when at
most 2 distinct non-`patterned` colors, else coordinated-palette). -/
theorem claim_C10 (outfit : List ClothingItem) (user : UserInfo) :
    generate_style_notes outfit user =
      spec_body_type_note user.body_type ++ [spec_color_note outfit] := by
  cases h : user.body_type <;>
    simp [generate_style_notes, spec_body_type_note, spec_color_note, h] <;>
    split_ifs <;> simp

/-- Counterexample to C10 as stated: an `hourglass` user gets a single note
(the color note) instead of the claimed two. -/
theorem claim_C10_counterexample :
    generate_style_notes [ex_top] ex_user_hg =
        ["Monochromatic color scheme creates a sleek, elongated look"] ∧
      (generate_style_notes [ex_top] ex_user_hg).length ≠ 2 := by
  decide
